import Mathlib

/-!
Verification of the bulk-write batching/merging engine (`src/bulk/common.ts`)
and the message decompression dispatcher (`src/unnamed/part_000`).

The TypeScript source is shallowly embedded: the mutable `BulkResult` that the
driver updates in place becomes explicit state passing, JavaScript's
possibly-absent document fields become `Option`s, and JavaScript truthiness
checks are spelled out (`result.n` is truthy iff it is a number other than 0;
a document value such as `{}` is always truthy).  Operations inside a batch are
opaque documents, embedded as a type parameter `α`.
-/

namespace Bulk

/-- A JS number that is either a plain `number` or a BSON `Long`; the source
normalizes both to `Long` before comparing opTime components
(`typeof x === 'number' ? Long.fromNumber(x) : x`, common.ts:482-494). -/
inductive NumOrLong where
  | num (v : Int)
  | long (v : Int)
deriving DecidableEq, Repr

/-- Normalization of a numeric opTime component (`Long.fromNumber` on plain
numbers is the identity on the underlying mathematical integer). -/
def NumOrLong.norm : NumOrLong → Int
  | .num v => v
  | .long v => v

/-- A decomposed operation-time marker `{ts, t}` (the non-`Timestamp` branch of
the opTime merge, common.ts:479-506).  The wire-native `Timestamp` object
branch (common.ts:473-478) delegates to the BSON library's
`Timestamp.greaterThan`, which is outside the excerpted source. -/
structure OpTimeDoc where
  ts : NumOrLong
  t : NumOrLong
deriving DecidableEq, Repr

/-- One entry of a server response's `writeErrors` array. -/
structure RespWriteError where
  index : Nat
  code : Int
  errmsg : String
deriving DecidableEq, Repr

/-- `WriteConcernErrorData` (common.ts:333-337), without the optional
`errInfo` payload (never inspected by the merge logic). -/
structure WriteConcernErrorData where
  code : Int
  errmsg : String
deriving DecidableEq, Repr

/-- One entry of a server response's plural `upserted` array. -/
structure RespUpsertedDoc where
  index : Nat
  _id : Int
deriving DecidableEq, Repr

/-- The `result.upserted` field can be an array, a single truthy `_id` value,
or absent (common.ts:522-538). -/
inductive UpsertedField where
  | absent
  | single (idVal : Int)
  | arr (docs : List RespUpsertedDoc)
deriving DecidableEq, Repr

/-- The fields of a server write-result document (or of an error object used
in its place) that `mergeBatchResults` reads.  Absent fields are `none`. -/
structure RespCore where
  ok : Option Int := none
  code : Option Int := none
  message : Option String := none
  n : Option Int := none
  nModified : Option Int := none
  upserted : UpsertedField := .absent
  writeErrors : Option (List RespWriteError) := none
  writeConcernError : Option WriteConcernErrorData := none
  opTime : Option OpTimeDoc := none
  lastOp : Option OpTimeDoc := none
deriving DecidableEq, Repr

/-- A response document plus its optional nested `result` field; the merge
unwraps one level (`if (result && result.result) result = result.result`,
common.ts:441-443) and never looks deeper. -/
structure Resp where
  core : RespCore
  inner : Option RespCore := none
deriving DecidableEq, Repr

/-- `BatchType` (common.ts:35-39). -/
inductive BatchType where
  | insert
  | update
  | delete
deriving DecidableEq, Repr

/-- `Batch` (common.ts:146-164); `α` is the type of operation documents. -/
structure Batch (α : Type) where
  originalZeroIndex : Nat
  currentIndex : Nat := 0
  originalIndexes : List Nat := []
  batchType : BatchType
  operations : List α := []
  size : Nat := 0
  sizeBytes : Nat := 0
deriving DecidableEq, Repr

/-- A cumulative write error (`WriteError` wrapping `BulkWriteOperationError`,
common.ts:383-400).  `index` and `op` are `Option`s because the source builds
them from JS array indexing, which yields `undefined` out of range. -/
structure CumWriteError (α : Type) where
  index : Option Nat
  code : Int
  errmsg : Option String
  op : Option α
deriving DecidableEq, Repr

/-- An `{index, _id}` record of the cumulative `upserted`/`insertedIds`
arrays. -/
structure IdByIndex where
  index : Nat
  _id : Int
deriving DecidableEq, Repr

/-- `BulkResult` (common.ts:126-138), the cumulative result document. -/
structure BulkResult (α : Type) where
  ok : Int
  writeErrors : List (CumWriteError α)
  writeConcernErrors : List WriteConcernErrorData
  insertedIds : List IdByIndex
  nInserted : Int
  nUpserted : Int
  nMatched : Int
  nModified : Int
  nRemoved : Int
  upserted : List IdByIndex
  opTime : Option OpTimeDoc := none
deriving DecidableEq, Repr

/-- The empty cumulative result the constructor builds (common.ts:962-973). -/
def freshBulkResult (α : Type) : BulkResult α :=
  { ok := 1
    writeErrors := []
    writeConcernErrors := []
    insertedIds := []
    nInserted := 0
    nUpserted := 0
    nMatched := 0
    nModified := 0
    nRemoved := 0
    upserted := []
    opTime := none }

/-- JS truthiness of a possibly-absent number: truthy iff present and not 0. -/
def truthyInt : Option Int → Bool
  | some v => v != 0
  | none => false

/-- The argument-selection prologue of `mergeBatchResults`
(common.ts:439-443): an error object replaces the result document, otherwise
a truthy nested `result.result` is unwrapped one level. -/
def selectResult (err : Option RespCore) (result : Option Resp) : Option RespCore :=
  match err with
  | some e => some e
  | none =>
    match result with
    | none => none
    | some r =>
      match r.inner with
      | some ri => some ri
      | none => some r.core

/-- The opTime comparison of common.ts:479-506: normalize `ts` and `t`, keep
the stored marker unless the incoming one is lexicographically greater. -/
def mergeOpTime (cur : Option OpTimeDoc) (opTime : OpTimeDoc) : Option OpTimeDoc :=
  match cur with
  | none => some opTime
  | some c =>
    let lastOpTS := c.ts.norm
    let lastOpT := c.t.norm
    let opTimeTS := opTime.ts.norm
    let opTimeT := opTime.t.norm
    if opTimeTS > lastOpTS then some opTime
    else if opTimeTS = lastOpTS then
      if opTimeT > lastOpT then some opTime else some c
    else some c

/-- The `result.opTime || result.lastOp` block (common.ts:466-507); the
selected marker prefers `lastOp` (`result.lastOp || result.opTime`). -/
def opTimeStage (r : RespCore) (br : BulkResult α) : BulkResult α :=
  match r.lastOp.or r.opTime with
  | some opTime => { br with opTime := mergeOpTime br.opTime opTime }
  | none => br

/-- Insert-count aggregation (common.ts:510-512). -/
def insertStage (batch : Batch α) (r : RespCore) (br : BulkResult α) : BulkResult α :=
  if batch.batchType = .insert ∧ truthyInt r.n then
    { br with nInserted := br.nInserted + r.n.getD 0 }
  else br

/-- Delete-count aggregation (common.ts:515-517). -/
def deleteStage (batch : Batch α) (r : RespCore) (br : BulkResult α) : BulkResult α :=
  if batch.batchType = .delete ∧ truthyInt r.n then
    { br with nRemoved := br.nRemoved + r.n.getD 0 }
  else br

/-- Upserted-id normalization and remapping (common.ts:519-538): an array
contributes each entry at `entry.index + originalZeroIndex`; a truthy singular
value contributes one entry at `originalZeroIndex`.  Returns the computed
`nUpserted` together with the updated result. -/
def upsertedStage (batch : Batch α) (r : RespCore) (br : BulkResult α) :
    Int × BulkResult α :=
  match r.upserted with
  | .arr docs =>
    ((docs.length : Int),
      { br with
          upserted := br.upserted ++ docs.map (fun u =>
            { index := u.index + batch.originalZeroIndex, _id := u._id }) })
  | .single idVal =>
    if idVal ≠ 0 then
      (1, { br with
              upserted := br.upserted ++
                [{ index := batch.originalZeroIndex, _id := idVal }] })
    else (0, br)
  | .absent => (0, br)

/-- Update-count aggregation (common.ts:541-551): add `nUpserted` and
`n - nUpserted`; add `nModified` when it is a number, otherwise set the
cumulative `nModified` to 0. -/
def updateStage (batch : Batch α) (r : RespCore) (p : Int × BulkResult α) :
    BulkResult α :=
  let nUpserted := p.1
  let br := p.2
  if batch.batchType = .update ∧ truthyInt r.n then
    let br := { br with
        nUpserted := br.nUpserted + nUpserted
        nMatched := br.nMatched + (r.n.getD 0 - nUpserted) }
    match r.nModified with
    | some m => { br with nModified := br.nModified + m }
    | none => { br with nModified := 0 }
  else br

/-- Per-operation write-error remapping (common.ts:553-564): each embedded
error's batch-local index `i` is remapped through `originalIndexes[i]`, and
`operations[i]` becomes the offending operation. -/
def writeErrorsStage (batch : Batch α) (r : RespCore) (br : BulkResult α) :
    BulkResult α :=
  match r.writeErrors with
  | some wes =>
    { br with
        writeErrors := br.writeErrors ++ wes.map (fun we =>
          { index := batch.originalIndexes.get? we.index
            code := we.code
            errmsg := some we.errmsg
            op := batch.operations.get? we.index }) }
  | none => br

/-- Write-concern-error accumulation (common.ts:566-568). -/
def writeConcernStage (r : RespCore) (br : BulkResult α) : BulkResult α :=
  match r.writeConcernError with
  | some wce => { br with writeConcernErrors := br.writeConcernErrors ++ [wce] }
  | none => br

/-- The field-merging body of `mergeBatchResults` executed once the top-level
`ok` checks have passed (common.ts:466-568), as the sequential composition of
its blocks. -/
def mergeMainPhase (batch : Batch α) (r : RespCore) (br : BulkResult α) :
    BulkResult α :=
  writeConcernStage r
    (writeErrorsStage batch r
      (updateStage batch r
        (upsertedStage batch r
          (deleteStage batch r
            (insertStage batch r
              (opTimeStage r br))))))

/-- `mergeBatchResults` (common.ts:432-569).  The second component is the
function's JS return value: the source is `void`, every `return` statement is
bare, so it is always `undefined` (`none`). -/
def mergeBatchResults (batch : Batch α) (bulkResult : BulkResult α)
    (err : Option RespCore) (result : Option Resp) :
    BulkResult α × Option Unit :=
  match selectResult err result with
  | none => (bulkResult, none)
  | some r =>
    if r.ok = some 0 ∧ bulkResult.ok = 1 then
      let writeError : CumWriteError α :=
        { index := some 0
          code := r.code.getD 0
          errmsg := r.message
          op := batch.operations.head? }
      ({ bulkResult with
          ok := 0
          writeErrors := bulkResult.writeErrors ++ [writeError] }, none)
    else if r.ok = some 0 ∧ bulkResult.ok = 0 then
      (bulkResult, none)
    else
      (mergeMainPhase batch r bulkResult, none)

/-- The driver error taxonomy used by the excerpted code
(`MongoInvalidArgumentError`, `MongoBatchReExecutionError`,
`MongoDecompressionError`). -/
inductive MongoErr where
  | invalidArgument (msg : String)
  | batchReExecution
  | decompression (msg : String)
deriving DecidableEq, Repr

/-- `MONGODB_ERROR_CODES.WriteConcernFailed` from the repository's error
module (imported by common.ts, not part of the excerpt). -/
def writeConcernFailedCode : Int := 64

/-- The combined-message loop of `getWriteConcernError`
(common.ts:306-313): concatenate every `errmsg`, inserting `" and "` after
the first one. -/
def combinedWCMessage (errs : List WriteConcernErrorData) : String :=
  errs.enum.foldl
    (fun errmsg ie =>
      let errmsg := errmsg ++ ie.2.errmsg
      if ie.1 = 0 then errmsg ++ " and " else errmsg)
    ""

/-- `BulkWriteResult.getWriteConcernError` (common.ts:298-317). -/
def getWriteConcernError (br : BulkResult α) : Option WriteConcernErrorData :=
  if br.writeConcernErrors.length = 0 then none
  else if br.writeConcernErrors.length = 1 then br.writeConcernErrors.head?
  else
    some { code := writeConcernFailedCode
           errmsg := combinedWCMessage br.writeConcernErrors }

/-- The three shapes a dispatch outcome can take in `resultHandler`
(common.ts:582-605): a driver error carrying a `message` (not a
write-concern error), a `MongoWriteConcernError` carrying the server's
result document, or an ordinary callback with an optional response. -/
inductive Outcome where
  | driverError
  | wcError (res : RespCore)
  | reply (res : Option Resp)

/-- The terminal value `executeCommands` hands to its callback: a successful
`BulkWriteResult` or a `MongoBulkWriteError` carrying the partial result. -/
inductive ExecFinal (α : Type) where
  | success (r : BulkResult α)
  | failure (r : BulkResult α)
deriving Repr

/-- `executeCommands` (common.ts:571-669) over a queue of batches paired with
the outcome the transport produces for each.  Returns the terminal callback
value together with the list of batches actually dispatched.  The
`.driverError` arm is the early return of common.ts:584-588; the `.wcError`
arm is `handleMongoWriteConcernError` (common.ts:590-592, 671-688), which
merges `err.result` and surfaces the aggregate error; the `.reply` arm is
common.ts:594-604: merge, the (dead) guard on the merge's return value, then
`handleWriteError` (common.ts:1247-1275) on the merged state — note
`writeResult` wraps the same mutable object the merge updates. -/
def executeCommandsModel : List (Batch α × Outcome) → BulkResult α →
    ExecFinal α × List (Batch α)
  | [], br => (.success br, [])
  | (b, o) :: rest, br =>
    match o with
    | .driverError => (.failure br, [b])
    | .wcError res =>
      (.failure (mergeBatchResults b br none (some { core := res })).1, [b])
    | .reply res =>
      let m := mergeBatchResults b br none res
      if m.2.isSome then (.success m.1, [b])
      else if m.1.writeErrors.length > 0 then (.failure m.1, [b])
      else if (getWriteConcernError m.1).isSome then (.failure m.1, [b])
      else
        let (r, ds) := executeCommandsModel rest m.1
        (r, b :: ds)

/-- A JS document argument as passed at runtime: absent (`undefined`),
`null`, or an object with (opaque) fields.  Only objects are truthy. -/
inductive JsVal where
  | undef
  | nullv
  | obj (fields : List (String × Int))
deriving DecidableEq, Repr

/-- JS truthiness of a document argument: every object — including the empty
document — is truthy. -/
def JsVal.truthy : JsVal → Bool
  | .obj _ => true
  | _ => false

/-- The pending operation descriptor `s.currentOp` that `find` installs
(common.ts:1087-1089) and the builder's modifiers extend. -/
structure CurrentOp where
  selector : JsVal
  upsert : Option Bool := none
  collation : Option Nat := none
  arrayFilters : Option (List Nat) := none
deriving DecidableEq, Repr

/-- The state bag `s` of `BulkOperationBase` (common.ts:860-898), restricted
to the fields `find` and `execute` read or write. -/
structure BulkOp (α : Type) where
  isOrdered : Bool
  executed : Bool
  currentOp : Option CurrentOp
  currentBatch : Option (Batch α)
  currentInsertBatch : Option (Batch α)
  currentUpdateBatch : Option (Batch α)
  currentRemoveBatch : Option (Batch α)
  batches : List (Batch α)
  writeConcern : Option Nat
  bulkResult : BulkResult α
deriving Repr

/-- A freshly constructed bulk operation (common.ts:976-1015). -/
def initialBulkOp (α : Type) (ordered : Bool) : BulkOp α :=
  { isOrdered := ordered
    executed := false
    currentOp := none
    currentBatch := none
    currentInsertBatch := none
    currentUpdateBatch := none
    currentRemoveBatch := none
    batches := []
    writeConcern := none
    bulkResult := freshBulkResult α }

/-- `BulkOperationBase.find` (common.ts:1081-1092): throw
`MongoInvalidArgumentError` on a falsy selector, otherwise install
`{ selector }` as the pending descriptor (the returned `FindOperators` is
just a handle onto this state). -/
def find (bulk : BulkOp α) (selector : JsVal) : Except MongoErr (BulkOp α) :=
  if !selector.truthy then
    .error (.invalidArgument "Bulk find operation must specify a selector")
  else
    .ok { bulk with currentOp := some { selector := selector } }

/-- The options object `execute` receives; only its write concern is read
before control passes to `executeCommands`. -/
structure ExecOptions where
  writeConcern : Option Nat := none
deriving DecidableEq, Repr

/-- The two ways `execute` can leave the excerpted code: an early error via
`handleEarlyError` (no batch dispatched) or handing the sealed queue to
`executeCommands`. -/
inductive ExecuteStart (α : Type) where
  | earlyError (e : MongoErr)
  | dispatch (queue : List (Batch α))
deriving Repr

/-- `BulkOperationBase.execute` (common.ts:1206-1241): fail with
`MongoBatchReExecutionError` if already executed; absorb a write concern from
the options; seal the trailing active batch(es) into the queue (ordered: the
one current batch; unordered: insert, update, remove, in that order — the
source pushes but does not clear the current-batch slots); fail with
`MongoInvalidArgumentError` on an empty queue; otherwise set `executed` and
start `executeCommands`. -/
def execute (bulk : BulkOp α) (options : ExecOptions) :
    ExecuteStart α × BulkOp α :=
  if bulk.executed then
    (.earlyError .batchReExecution, bulk)
  else
    let bulk :=
      match options.writeConcern with
      | some wc => { bulk with writeConcern := some wc }
      | none => bulk
    let bulk :=
      if bulk.isOrdered then
        match bulk.currentBatch with
        | some b => { bulk with batches := bulk.batches ++ [b] }
        | none => bulk
      else
        let bulk :=
          match bulk.currentInsertBatch with
          | some b => { bulk with batches := bulk.batches ++ [b] }
          | none => bulk
        let bulk :=
          match bulk.currentUpdateBatch with
          | some b => { bulk with batches := bulk.batches ++ [b] }
          | none => bulk
        match bulk.currentRemoveBatch with
        | some b => { bulk with batches := bulk.batches ++ [b] }
        | none => bulk
    if bulk.batches.length = 0 then
      (.earlyError (.invalidArgument "Invalid BulkOperation, Batch cannot be empty"),
        bulk)
    else
      let bulk := { bulk with executed := true }
      (.dispatch bulk.batches, bulk)


/-- Strict lexicographic order on normalized (ts, t) pairs, used to state
the opTime merge's specification. -/
def lexGT (a b : Int × Int) : Bool :=
  decide (b.1 < a.1 ∨ (a.1 = b.1 ∧ b.2 < a.2))

/-- The normalized (ts, t) pair of a decomposed operation-time marker. -/
def normPair (x : OpTimeDoc) : Int × Int := (x.ts.norm, x.t.norm)

/- Concrete fixtures used by the claim theorems and witnesses. -/

/-- The empty cumulative result over `Nat`-coded operations. -/
def natFresh : BulkResult Nat := freshBulkResult Nat

/-- An insert batch whose operations start at original caller index 0. -/
def insBatch : Batch Nat :=
  { originalZeroIndex := 0
    originalIndexes := [0, 1, 2]
    batchType := .insert
    operations := [1, 2, 3]
    size := 3
    sizeBytes := 30 }

/-- An insert batch whose first operation has original caller index 5. -/
def c1Batch : Batch Nat :=
  { originalZeroIndex := 5
    originalIndexes := [5, 6]
    batchType := .insert
    operations := [42, 43]
    size := 2
    sizeBytes := 20 }

/-- A top-level command failure response (`ok: 0` with code and message). -/
def c1Resp : Resp :=
  { core := { ok := some 0, code := some 11600, message := some "interrupted at shutdown" } }

/-- An update batch of one operation at original index 0. -/
def c2Batch : Batch Nat :=
  { originalZeroIndex := 0
    originalIndexes := [0]
    batchType := .update
    operations := [7]
    size := 1
    sizeBytes := 10 }

/-- A cumulative result that already accumulated `nModified = 5` from earlier
batches. -/
def c2Prior : BulkResult Nat := { natFresh with nMatched := 5, nModified := 5 }

/-- An update response carrying `n: 1` but no `nModified` field. -/
def c2Resp : Resp := { core := { ok := some 1, n := some 1 } }

/-- A cumulative result already in the terminal `ok = 0` state. -/
def c3Terminal : BulkResult Nat := { natFresh with ok := 0 }

/-- A successful insert response for three documents. -/
def c3OkResp : Resp := { core := { ok := some 1, n := some 3 } }

/-- An error document as forced by the catch block (`err.ok = 0`,
common.ts:662-667). -/
def c3ErrDoc : RespCore := { ok := some 0, message := some "server error" }

/-- An update batch whose per-position index map is not a flat offset from
`originalZeroIndex` (position 1 maps to caller index 9, not 5). -/
def c7Batch : Batch Nat :=
  { originalZeroIndex := 4
    originalIndexes := [4, 9]
    batchType := .update
    operations := [70, 71]
    size := 2
    sizeBytes := 20 }

/-- A response with two embedded per-operation write errors, listed in the
order (batch-local 1, batch-local 0). -/
def c7Resp : Resp :=
  { core := { ok := some 1, n := some 2, nModified := some 0,
              writeErrors := some [⟨1, 11000, "dup key"⟩, ⟨0, 121, "validation"⟩] } }

/-- A write-concern error payload. -/
def c5Wce : WriteConcernErrorData := ⟨64, "waiting for replication timed out"⟩

/-- The `err.result` document of a `MongoWriteConcernError`: the write
succeeded (`ok: 1, n: 3`) but the write concern was not satisfied. -/
def c5Res : RespCore := { ok := some 1, n := some 3, writeConcernError := some c5Wce }

/-- A bulk operation that has already executed once. -/
def executedBulkOp : BulkOp Nat := { initialBulkOp Nat true with executed := true }

end Bulk

namespace Compression

/-- The `Compressor` id table (part_000:9-13). -/
def Compressor.noneId : Int := 0

/-- Snappy compressor id. -/
def Compressor.snappy : Int := 1

/-- Zlib compressor id. -/
def Compressor.zlib : Int := 2

/-- The interpolated `MongoDecompressionError` message (part_000:69-71). -/
def unsupportedCompressorMessage (compressorID : Int) : String :=
  "Server sent message compressed using an unsupported compressor. (Received compressor ID "
    ++ toString compressorID ++ ")"

/-- What one call to `decompress` does before any external library runs: a
thrown `MongoDecompressionError`, a delegation to the Snappy or zlib codec
(which will invoke the callback itself), or a direct
`callback(undefined, compressedData)`. -/
inductive DecompressStep where
  | threw (e : Bulk.MongoErr)
  | snappyDelegate
  | zlibDelegate
  | callbackIdentity (data : List Nat)
deriving DecidableEq, Repr

/-- `decompress` (part_000:63-87): reject compressor ids outside
`[0, Math.max(2)]` (i.e. `[0, 2]`), delegate snappy and zlib to the external
codecs, and fall through to the identity callback in the `default` arm
(compressor id 0, "none"). -/
def decompress (compressorID : Int) (compressedData : List Nat) : DecompressStep :=
  if compressorID < 0 ∨ compressorID > 2 then
    .threw (.decompression (unsupportedCompressorMessage compressorID))
  else if compressorID = Compressor.snappy then
    .snappyDelegate
  else if compressorID = Compressor.zlib then
    .zlibDelegate
  else
    .callbackIdentity compressedData

end Compression

namespace Bulk

/- Field-preservation lemmas for the individual merge stages: each stage
touches only the fields the corresponding source block assigns. -/

theorem opTimeStage_writeErrors (r : RespCore) (br : BulkResult α) :
    (opTimeStage r br).writeErrors = br.writeErrors := by
  simp only [opTimeStage]; split <;> rfl

theorem opTimeStage_writeConcernErrors (r : RespCore) (br : BulkResult α) :
    (opTimeStage r br).writeConcernErrors = br.writeConcernErrors := by
  simp only [opTimeStage]; split <;> rfl

theorem insertStage_writeErrors (batch : Batch α) (r : RespCore) (br : BulkResult α) :
    (insertStage batch r br).writeErrors = br.writeErrors := by
  simp only [insertStage]; split <;> rfl

theorem insertStage_writeConcernErrors (batch : Batch α) (r : RespCore)
    (br : BulkResult α) :
    (insertStage batch r br).writeConcernErrors = br.writeConcernErrors := by
  simp only [insertStage]; split <;> rfl

theorem deleteStage_writeErrors (batch : Batch α) (r : RespCore) (br : BulkResult α) :
    (deleteStage batch r br).writeErrors = br.writeErrors := by
  simp only [deleteStage]; split <;> rfl

theorem deleteStage_writeConcernErrors (batch : Batch α) (r : RespCore)
    (br : BulkResult α) :
    (deleteStage batch r br).writeConcernErrors = br.writeConcernErrors := by
  simp only [deleteStage]; split <;> rfl

theorem upsertedStage_writeErrors (batch : Batch α) (r : RespCore) (br : BulkResult α) :
    (upsertedStage batch r br).2.writeErrors = br.writeErrors := by
  simp only [upsertedStage]; split <;> first | rfl | (split <;> rfl)

theorem upsertedStage_writeConcernErrors (batch : Batch α) (r : RespCore)
    (br : BulkResult α) :
    (upsertedStage batch r br).2.writeConcernErrors = br.writeConcernErrors := by
  simp only [upsertedStage]; split <;> first | rfl | (split <;> rfl)

theorem updateStage_writeErrors (batch : Batch α) (r : RespCore)
    (p : Int × BulkResult α) :
    (updateStage batch r p).writeErrors = p.2.writeErrors := by
  simp only [updateStage]; split <;> first | rfl | (split <;> rfl)

theorem updateStage_writeConcernErrors (batch : Batch α) (r : RespCore)
    (p : Int × BulkResult α) :
    (updateStage batch r p).writeConcernErrors = p.2.writeConcernErrors := by
  simp only [updateStage]; split <;> first | rfl | (split <;> rfl)

theorem updateStage_nModified_absent (batch : Batch α) (r : RespCore)
    (p : Int × BulkResult α) (hty : batch.batchType = .update)
    (hn : truthyInt r.n = true) (hmod : r.nModified = none) :
    (updateStage batch r p).nModified = 0 := by
  simp only [updateStage, hmod]
  rw [if_pos ⟨hty, hn⟩]

theorem writeErrorsStage_writeErrors (batch : Batch α) (r : RespCore)
    (br : BulkResult α) (wes : List RespWriteError)
    (hwe : r.writeErrors = some wes) :
    (writeErrorsStage batch r br).writeErrors =
      br.writeErrors ++ wes.map (fun we =>
        { index := batch.originalIndexes.get? we.index
          code := we.code
          errmsg := some we.errmsg
          op := batch.operations.get? we.index }) := by
  simp only [writeErrorsStage, hwe]

theorem writeErrorsStage_writeConcernErrors (batch : Batch α) (r : RespCore)
    (br : BulkResult α) :
    (writeErrorsStage batch r br).writeConcernErrors = br.writeConcernErrors := by
  simp only [writeErrorsStage]; split <;> rfl

theorem writeErrorsStage_nModified (batch : Batch α) (r : RespCore)
    (br : BulkResult α) :
    (writeErrorsStage batch r br).nModified = br.nModified := by
  simp only [writeErrorsStage]; split <;> rfl

theorem writeConcernStage_writeErrors (r : RespCore) (br : BulkResult α) :
    (writeConcernStage r br).writeErrors = br.writeErrors := by
  simp only [writeConcernStage]; split <;> rfl

theorem writeConcernStage_nModified (r : RespCore) (br : BulkResult α) :
    (writeConcernStage r br).nModified = br.nModified := by
  simp only [writeConcernStage]; split <;> rfl

theorem writeConcernStage_writeConcernErrors (r : RespCore) (br : BulkResult α)
    (wce : WriteConcernErrorData) (h : r.writeConcernError = some wce) :
    (writeConcernStage r br).writeConcernErrors =
      br.writeConcernErrors ++ [wce] := by
  simp only [writeConcernStage, h]

/-- When the selected response document has `ok = 1`, neither top-level `ok`
branch fires and `mergeBatchResults` runs the field-merging body. -/
theorem mergeBatchResults_ok_one (batch : Batch α) (br : BulkResult α) (r : Resp)
    (hok : r.core.ok = some 1) (hinner : r.inner = none) :
    mergeBatchResults batch br none (some r) =
      (mergeMainPhase batch r.core br, none) := by
  simp only [mergeBatchResults, selectResult, hinner, hok]
  norm_num

/-- Every code path of `mergeBatchResults` returns the JS value `undefined`. -/
theorem mergeBatchResults_snd (batch : Batch α) (br : BulkResult α)
    (err : Option RespCore) (res : Option Resp) :
    (mergeBatchResults batch br err res).2 = none := by
  simp only [mergeBatchResults]
  split
  · rfl
  · split
    · rfl
    · split <;> rfl

end Bulk

namespace Bulk

/-- Claim C1, counterexample: on a top-level command failure
(`response.ok == 0` while `cumulative.ok == 1`) the recorded WriteError's
index is the literal `0` (common.ts:454), not `batch.originalZeroIndex`,
which here is 5. -/
theorem c1_index_is_zero_not_originalZeroIndex :
    ((mergeBatchResults c1Batch natFresh none (some c1Resp)).1.writeErrors.map
        (fun w => w.index)) = [some 0] ∧
      c1Batch.originalZeroIndex = 5 := by
  constructor <;> rfl

/-- Claim C1 (amended): on a top-level command failure the Result Merger sets
`cumulative.ok` to 0 and records exactly one WriteError whose index is the
literal 0 (not `batch.originalZeroIndex`), whose code/message come from the
command error, and whose offending operation is the batch's first operation;
no further field merging is attempted for that response. -/
theorem c1_top_level_failure (α : Type) (batch : Batch α) (br : BulkResult α)
    (r : Resp) (hok : r.core.ok = some 0) (hinner : r.inner = none)
    (hbr : br.ok = 1) :
    mergeBatchResults batch br none (some r) =
      ({ br with
          ok := 0
          writeErrors := br.writeErrors ++
            [{ index := some 0
               code := r.core.code.getD 0
               errmsg := r.core.message
               op := batch.operations.head? }] }, none) := by
  simp only [mergeBatchResults, selectResult, hinner]
  rw [if_pos ⟨hok, hbr⟩]

/-- Witness for `c1_top_level_failure` at an explicit batch and response. -/
theorem c1_top_level_failure_witness :
    mergeBatchResults c1Batch natFresh none (some c1Resp) =
      ({ ok := 0
         writeErrors := [{ index := some 0
                           code := 11600
                           errmsg := some "interrupted at shutdown"
                           op := some 42 }]
         writeConcernErrors := []
         insertedIds := []
         nInserted := 0
         nUpserted := 0
         nMatched := 0
         nModified := 0
         nRemoved := 0
         upserted := []
         opTime := none }, none) :=
  c1_top_level_failure Nat c1Batch natFresh c1Resp rfl rfl rfl

/-- Claim C2, counterexample: an update response with `n: 1` and no
`nModified` does not leave the previously accumulated `nModified = 5`
unchanged — the merge resets it to 0 (common.ts:549). -/
theorem c2_nModified_not_preserved :
    (mergeBatchResults c2Batch c2Prior none (some c2Resp)).1.nModified = 0 ∧
      c2Prior.nModified = 5 := by
  constructor <;> rfl

/-- Claim C2 (amended): for an Update batch whose response carries a truthy
affected-count `n` but omits a numeric `nModified`, the Result Merger resets
the cumulative `nModified` to 0, discarding any value accumulated from
earlier batches. -/
theorem c2_nModified_reset (α : Type) (batch : Batch α) (br : BulkResult α)
    (r : Resp) (hty : batch.batchType = .update) (hok : r.core.ok = some 1)
    (hinner : r.inner = none) (hn : truthyInt r.core.n = true)
    (hmod : r.core.nModified = none) :
    (mergeBatchResults batch br none (some r)).1.nModified = 0 := by
  rw [mergeBatchResults_ok_one batch br r hok hinner]
  show (mergeMainPhase batch r.core br).nModified = 0
  simp only [mergeMainPhase]
  rw [writeConcernStage_nModified, writeErrorsStage_nModified]
  exact updateStage_nModified_absent batch r.core _ hty hn hmod

/-- Witness for `c2_nModified_reset` at an explicit batch and response. -/
theorem c2_nModified_reset_witness :
    (mergeBatchResults c2Batch c2Prior none (some c2Resp)).1.nModified = 0 :=
  c2_nModified_reset Nat c2Batch c2Prior c2Resp rfl rfl rfl rfl rfl

/-- Claim C3, counterexample: with the cumulative result already in the
terminal `ok = 0` state, merging a later response with `ok: 1, n: 3` for an
insert batch still increments `nInserted` from 0 to 3 — the count fields are
not frozen (common.ts:509-551 has no guard on `bulkResult.ok`). -/
theorem c3_counts_mutate_after_terminal :
    (mergeBatchResults insBatch c3Terminal none (some c3OkResp)).1.nInserted = 3 ∧
      c3Terminal.ok = 0 ∧ c3Terminal.nInserted = 0 := by
  refine ⟨rfl, rfl, rfl⟩

/-- Claim C3 (amended): once `cumulative.ok = 0`, a merge call whose
effective response document is absent or itself has `ok == 0` leaves the
cumulative result entirely unchanged; a later response with `ok == 1`,
however, is still merged normally and can mutate count fields (see the
counterexample). -/
theorem c3_terminal_frozen_for_failures (α : Type) (batch : Batch α)
    (br : BulkResult α) (err : Option RespCore) (res : Option Resp)
    (h0 : br.ok = 0)
    (hres : ∀ r, selectResult err res = some r → r.ok = some 0) :
    mergeBatchResults batch br err res = (br, none) := by
  unfold mergeBatchResults
  cases hsel : selectResult err res with
  | none => rfl
  | some r =>
    have hr := hres r hsel
    dsimp only
    rw [hr, h0]
    simp

/-- Witness for `c3_terminal_frozen_for_failures`: a second top-level error
document merged into an already-terminal result changes nothing. -/
theorem c3_terminal_frozen_witness :
    mergeBatchResults insBatch c3Terminal (some c3ErrDoc) none =
      (c3Terminal, none) :=
  c3_terminal_frozen_for_failures Nat insBatch c3Terminal (some c3ErrDoc) none rfl
    (by intro r h; injection h with h; rw [← h]; rfl)

end Bulk

namespace Bulk

/-- Claim C4, counterexample: `find({})` with the empty document does not
fail — `!selector` (common.ts:1082) is false for every object, so the empty
document is accepted and installed as the pending selector. -/
theorem c4_empty_document_accepted :
    find (initialBulkOp Nat true) (JsVal.obj []) =
      .ok { initialBulkOp Nat true with
              currentOp := some { selector := JsVal.obj [] } } := rfl

/-- Claim C4 (amended): `find(filter)` fails with `InvalidArgument` exactly
when the filter argument is falsy (absent/`undefined` or `null`); every
object — including the empty document `{}` — is accepted and becomes the
single pending operation descriptor. -/
theorem c4_find_falsy_selector (α : Type) (bulk : BulkOp α) (sel : JsVal) :
    (sel.truthy = false →
      find bulk sel =
        .error (.invalidArgument "Bulk find operation must specify a selector")) ∧
    (sel.truthy = true →
      find bulk sel = .ok { bulk with currentOp := some { selector := sel } }) := by
  constructor <;> intro h <;> simp [find, h]

/-- Witness for `c4_find_falsy_selector` at an absent selector and at a
non-empty document. -/
theorem c4_find_falsy_selector_witness :
    find (initialBulkOp Nat true) JsVal.undef =
        .error (.invalidArgument "Bulk find operation must specify a selector") ∧
      find (initialBulkOp Nat true) (JsVal.obj [("a", 1)]) =
        .ok { initialBulkOp Nat true with
                currentOp := some { selector := JsVal.obj [("a", 1)] } } :=
  ⟨(c4_find_falsy_selector Nat (initialBulkOp Nat true) JsVal.undef).1 rfl,
   (c4_find_falsy_selector Nat (initialBulkOp Nat true)
      (JsVal.obj [("a", 1)])).2 rfl⟩

/-- Claim C5: when a batch's dispatch fails with a `MongoWriteConcernError`,
the executor merges the error's result document into the cumulative result —
appending its `writeConcernError` — and surfaces the aggregate failure at
once: only that batch is dispatched, whatever is still queued after it. -/
theorem c5_write_concern_failure_terminal (α : Type) (b : Batch α)
    (br : BulkResult α) (res : RespCore) (rest : List (Batch α × Outcome))
    (wce : WriteConcernErrorData) (hok : res.ok = some 1)
    (hwce : res.writeConcernError = some wce) :
    executeCommandsModel ((b, .wcError res) :: rest) br =
        (.failure (mergeMainPhase b res br), [b]) ∧
      (mergeMainPhase b res br).writeConcernErrors =
        br.writeConcernErrors ++ [wce] := by
  constructor
  · show (ExecFinal.failure (mergeBatchResults b br none (some { core := res })).1,
        [b]) = _
    rw [mergeBatchResults_ok_one b br { core := res } hok rfl]
  · simp only [mergeMainPhase]
    rw [writeConcernStage_writeConcernErrors _ _ wce hwce,
        writeErrorsStage_writeConcernErrors, updateStage_writeConcernErrors,
        upsertedStage_writeConcernErrors, deleteStage_writeConcernErrors,
        insertStage_writeConcernErrors, opTimeStage_writeConcernErrors]

/-- Witness for `c5_write_concern_failure_terminal`: a queue holding a
write-concern-failing batch followed by another batch dispatches only the
first and surfaces the failure with the WriteConcernError recorded. -/
theorem c5_write_concern_failure_terminal_witness :
    executeCommandsModel [(insBatch, .wcError c5Res), (c7Batch, .reply none)]
        natFresh =
        (.failure (mergeMainPhase insBatch c5Res natFresh), [insBatch]) ∧
      (mergeMainPhase insBatch c5Res natFresh).writeConcernErrors = [c5Wce] :=
  c5_write_concern_failure_terminal Nat insBatch natFresh c5Res
    [(c7Batch, .reply none)] c5Wce rfl rfl

/-- Claim C6: the merged operation-time marker is the lexicographic maximum
on (normalized `ts`, then normalized `t`): the incoming marker replaces the
stored one exactly when it is strictly greater; merging (5, 2) after (5, 1)
through `mergeBatchResults` yields (5, 2), while merging (4, 9) after (5, 1)
keeps (5, 1); `num`/`long` components are normalized before comparison. -/
theorem c6_opTime_lexicographic_max :
    (∀ c o : OpTimeDoc, mergeOpTime (some c) o =
        some (if lexGT (normPair o) (normPair c) then o else c)) ∧
    (∀ o : OpTimeDoc, mergeOpTime none o = some o) ∧
    (mergeBatchResults insBatch
          { natFresh with opTime := some ⟨.num 5, .num 1⟩ } none
          (some { core := { ok := some 1, opTime := some ⟨.num 5, .long 2⟩ } })).1.opTime =
        some ⟨.num 5, .long 2⟩ ∧
    (mergeBatchResults insBatch
          { natFresh with opTime := some ⟨.num 5, .num 1⟩ } none
          (some { core := { ok := some 1, opTime := some ⟨.num 4, .num 9⟩ } })).1.opTime =
        some ⟨.num 5, .num 1⟩ := by
  refine ⟨?_, fun o => rfl, by decide, by decide⟩
  intro c o
  unfold mergeOpTime lexGT normPair
  by_cases h1 : o.ts.norm > c.ts.norm
  · simp [h1]
  · by_cases h2 : o.ts.norm = c.ts.norm
    · by_cases h3 : o.t.norm > c.t.norm
      · simp [h1, h2, h3]
      · simp [h1, h2, h3]
    · simp [h1, h2]

/-- Claim C7: every embedded per-operation write error of batch-local index
`i` is appended to the cumulative `writeErrors` with index
`batch.originalIndexes[i]` and offending operation `batch.operations[i]`,
in the response's list order. -/
theorem c7_write_error_index_remap (α : Type) (batch : Batch α)
    (br : BulkResult α) (r : Resp) (wes : List RespWriteError)
    (hok : r.core.ok = some 1) (hinner : r.inner = none)
    (hwe : r.core.writeErrors = some wes) :
    (mergeBatchResults batch br none (some r)).1.writeErrors =
      br.writeErrors ++ wes.map (fun we =>
        { index := batch.originalIndexes.get? we.index
          code := we.code
          errmsg := some we.errmsg
          op := batch.operations.get? we.index }) := by
  rw [mergeBatchResults_ok_one batch br r hok hinner]
  show (mergeMainPhase batch r.core br).writeErrors = _
  simp only [mergeMainPhase]
  rw [writeConcernStage_writeErrors,
      writeErrorsStage_writeErrors batch r.core _ wes hwe,
      updateStage_writeErrors, upsertedStage_writeErrors, deleteStage_writeErrors,
      insertStage_writeErrors, opTimeStage_writeErrors]

/-- Witness for `c7_write_error_index_remap`: batch-local error index 1 maps
to caller index 9 via `originalIndexes` (a flat `originalZeroIndex + 1`
offset would give 5), and the response's error order is preserved. -/
theorem c7_write_error_index_remap_witness :
    (mergeBatchResults c7Batch natFresh none (some c7Resp)).1.writeErrors =
      [{ index := some 9, code := 11000, errmsg := some "dup key", op := some 71 },
       { index := some 4, code := 121, errmsg := some "validation", op := some 70 }] :=
  c7_write_error_index_remap Nat c7Batch natFresh c7Resp
    [⟨1, 11000, "dup key"⟩, ⟨0, 121, "validation"⟩] rfl rfl rfl

/-- Claim C8: calling `execute` on an already-executed bulk operation fails
with `BatchReexecution`, leaves the state untouched, and dispatches no
batch; and the `executed` flag never transitions from `true` back to
`false`. -/
theorem c8_reexecution_guard (α : Type) (bulk : BulkOp α) (opts : ExecOptions) :
    (bulk.executed = true →
      execute bulk opts = (.earlyError .batchReExecution, bulk)) ∧
    ((execute bulk opts).2.executed = false → bulk.executed = false) := by
  constructor
  · intro h; simp [execute, h]
  · intro h
    cases hb : bulk.executed with
    | false => rfl
    | true =>
      have he : execute bulk opts = (.earlyError .batchReExecution, bulk) := by
        simp [execute, hb]
      rw [he] at h
      rw [hb] at h
      exact absurd h (by simp)

/-- Witness for `c8_reexecution_guard` on a concrete already-executed bulk
operation. -/
theorem c8_reexecution_guard_witness :
    execute executedBulkOp {} = (.earlyError .batchReExecution, executedBulkOp) :=
  (c8_reexecution_guard Nat executedBulkOp {}).1 rfl

/-- Claim C9: `mergeBatchResults` is `void` — every path returns `undefined`
— so the executor's early-success branch guarded by `mergeResult != null`
(common.ts:597-599) is unreachable: handling an ordinary reply is exactly
merge followed by the write-error / write-concern checks, with the guard
erased. -/
theorem c9_merge_result_is_void :
    (∀ (α : Type) (b : Batch α) (br : BulkResult α) (err : Option RespCore)
        (res : Option Resp), (mergeBatchResults b br err res).2 = none) ∧
    (∀ (α : Type) (b : Batch α) (br : BulkResult α) (res : Option Resp)
        (rest : List (Batch α × Outcome)),
      executeCommandsModel ((b, .reply res) :: rest) br =
        (let m := (mergeBatchResults b br none res).1
         if m.writeErrors.length > 0 then (.failure m, [b])
         else if (getWriteConcernError m).isSome then (.failure m, [b])
         else
           match executeCommandsModel rest m with
           | (r, ds) => (r, b :: ds))) := by
  refine ⟨fun α b br err res => mergeBatchResults_snd b br err res, ?_⟩
  intro α b br res rest
  have h2 := mergeBatchResults_snd b br none res
  simp only [executeCommandsModel, h2, Option.isSome_none, Bool.false_eq_true,
    if_false]

end Bulk

namespace Compression

/-- Claim C10: `decompress` with compressor id 0 invokes the callback with
the input buffer unchanged, and throws `MongoDecompressionError` — invoking
no callback — for every compressor id outside `[0, 2]`. -/
theorem c10_decompress_identity_and_range :
    (∀ data : List Nat, decompress 0 data = .callbackIdentity data) ∧
    (∀ (cid : Int) (data : List Nat), cid < 0 ∨ 2 < cid →
      decompress cid data =
        .threw (.decompression (unsupportedCompressorMessage cid))) := by
  constructor
  · intro data; rfl
  · intro cid data h
    unfold decompress
    rw [if_pos h]

/-- Witness for `c10_decompress_identity_and_range` at compressor id 3. -/
theorem c10_decompress_witness :
    decompress 3 [1, 2] =
      .threw (.decompression (unsupportedCompressorMessage 3)) :=
  (c10_decompress_identity_and_range).2 3 [1, 2] (Or.inr (by norm_num))

end Compression
